import Mathlib

/-!
Shallow embedding of the client-side photo-processing pipeline of the
SmartGen CV maker: the mobile crop tool (crop-region state and its gesture
operations), the enhanced photo capture file ingestion, the CV photo
template stage, and the master workflow orchestrator.  Numeric values that
the source manipulates as JavaScript numbers are modelled as exact
rationals; canvas dimension assignment, which truncates to an unsigned
integer, is modelled with an explicit floor.
-/

/-- Crop state of the mobile crop tool: region origin and size in display
pixels, zoom factor and rotation in degrees. -/
structure CropData where
  x : ℚ
  y : ℚ
  width : ℚ
  height : ℚ
  zoom : ℚ
  rotation : ℕ
deriving DecidableEq, Repr

/-- The initial `useState` value of the crop tool's state. -/
def initialCropData : CropData :=
  { x := 0, y := 0, width := 300, height := 450, zoom := 1, rotation := 0 }

/-- Single-touch drag move: the handler clamps the new origin with
`max 0 (min new (container - size))` in each axis. -/
def dragMove (cw ch newX newY : ℚ) (s : CropData) : CropData :=
  { s with
    x := max 0 (min newX (cw - s.width)),
    y := max 0 (min newY (ch - s.height)) }

/-- Two-touch pinch move: zoom is multiplied by the touch-distance ratio and
clamped with `max 0.5 (min 3 _)`. -/
def pinchMove (scaleFactor : ℚ) (s : CropData) : CropData :=
  { s with zoom := max (1/2) (min 3 (s.zoom * scaleFactor)) }

/-- Zoom-in button: `zoom := min 3 (zoom + 0.1)`. -/
def zoomIn (s : CropData) : CropData :=
  { s with zoom := min 3 (s.zoom + 1/10) }

/-- Zoom-out button: `zoom := max 0.5 (zoom - 0.1)`. -/
def zoomOut (s : CropData) : CropData :=
  { s with zoom := max (1/2) (s.zoom - 1/10) }

/-- Rotate button: `rotation := (rotation + 90) % 360`. -/
def rotateImage (s : CropData) : CropData :=
  { s with rotation := (s.rotation + 90) % 360 }

/-- Reset button: restores the fixed state
`{x: 0, y: 0, width: 300, height: 300 / aspectRatio, zoom: 1, rotation: 0}`. -/
def resetCrop (aspectRatio : ℚ) (_s : CropData) : CropData :=
  { x := 0, y := 0, width := 300, height := 300 / aspectRatio,
    zoom := 1, rotation := 0 }

/-- The initialization effect run when the image loads: region width is
`min 300 (containerWidth * 0.8)`, height derived from the aspect ratio, and
the region is centered in the container; zoom and rotation keep their
previous values. -/
def initCrop (cw ch aspectRatio : ℚ) (s : CropData) : CropData :=
  let cropWidth := min 300 (cw * (8/10))
  let cropHeight := cropWidth / aspectRatio
  { s with
    width := cropWidth, height := cropHeight,
    x := (cw - cropWidth) / 2, y := (ch - cropHeight) / 2 }

/-- The crop state right after mount and the initialization effect. -/
def initializedCrop (cw ch aspectRatio : ℚ) : CropData :=
  initCrop cw ch aspectRatio initialCropData

/-- One user-level operation on the crop tool. -/
inductive CropOp where
  | drag (newX newY : ℚ)
  | pinch (scaleFactor : ℚ)
  | zin
  | zout
  | rot
  | reset
deriving DecidableEq, Repr

/-- Interpret one crop operation on the state, for a fixed container size
and active aspect ratio. -/
def applyOp (cw ch aspectRatio : ℚ) (s : CropData) : CropOp → CropData
  | .drag nx ny => dragMove cw ch nx ny s
  | .pinch k => pinchMove k s
  | .zin => zoomIn s
  | .zout => zoomOut s
  | .rot => rotateImage s
  | .reset => resetCrop aspectRatio s

/-- Interpret a sequence of crop operations, oldest first. -/
def applyOps (cw ch aspectRatio : ℚ) (s : CropData) (ops : List CropOp) : CropData :=
  ops.foldl (applyOp cw ch aspectRatio) s

/-- The containment invariant claimed for crop regions: the region lies
fully inside the container. -/
def insideContainer (cw ch : ℚ) (s : CropData) : Prop :=
  0 ≤ s.x ∧ 0 ≤ s.y ∧ s.x + s.width ≤ cw ∧ s.y + s.height ≤ ch

instance (cw ch : ℚ) (s : CropData) : Decidable (insideContainer cw ch s) := by
  unfold insideContainer
  exact inferInstance

/-- Output raster dimensions set by `applyCrop`: the canvas is sized to
`outputWidth = 400` and `outputHeight = outputWidth / aspectRatio`; the
canvas `width`/`height` attributes truncate the assigned value to an
integer. -/
def applyCropOutputDims (aspectRatio : ℚ) : ℤ × ℤ :=
  let outputWidth : ℚ := 400
  let outputHeight : ℚ := outputWidth / aspectRatio
  (⌊outputWidth⌋, ⌊outputHeight⌋)

/-- The display-to-source coordinate mapping performed inside `applyCrop`:
`scaleX = naturalWidth / displayWidth`, `scaleY = naturalHeight /
displayHeight`, and each region component is multiplied by the matching
scale, with no rounding.  Returned as `(cropX, cropY, cropWidth,
cropHeight)`. -/
def computeCropSourceRect (s : CropData) (displayW displayH naturalW naturalH : ℚ) :
    ℚ × ℚ × ℚ × ℚ :=
  let scaleX := naturalW / displayW
  let scaleY := naturalH / displayH
  (s.x * scaleX, s.y * scaleY, s.width * scaleX, s.height * scaleY)

/-- Workflow steps of the master photo-capture orchestrator. -/
inductive WorkflowStep where
  | capture
  | crop
  | enhance
  | templates
  | final
deriving DecidableEq, Repr, BEq

/-- Orchestrator state: current step plus the four per-stage artifacts,
each held as a string URL with the empty string meaning "not produced". -/
structure MasterState where
  currentStep : WorkflowStep
  capturedImage : String
  croppedImage : String
  enhancedImage : String
  finalImage : String
deriving DecidableEq, Repr

/-- The linear step list used by `goNext`/`goPrev`. -/
def workflowSteps : List WorkflowStep :=
  [.capture, .crop, .enhance, .templates, .final]

/-- `canGoNext`: the forward-navigation guard, requiring the current
stage's artifact to be non-empty (always true at `final`). -/
def canGoNext (s : MasterState) : Bool :=
  match s.currentStep with
  | .capture => s.capturedImage != ""
  | .crop => s.croppedImage != ""
  | .enhance => s.enhancedImage != ""
  | .templates => s.finalImage != ""
  | .final => true

/-- `goNext`: advance to the next entry of `workflowSteps` unless already
at the last one. -/
def goNext (s : MasterState) : MasterState :=
  let currentIndex := workflowSteps.indexOf s.currentStep
  if currentIndex < workflowSteps.length - 1 then
    { s with currentStep := workflowSteps.getD (currentIndex + 1) s.currentStep }
  else s

/-- The Next button dispatches `goNext` only when enabled: the button
carries `disabled := not canGoNext`, and a disabled button does not fire
its click handler.  Pressing Next is therefore guarded `goNext`. -/
def pressNext (s : MasterState) : MasterState :=
  if canGoNext s then goNext s else s

/-- Upload rejection reasons of the enhanced photo capture component. -/
inductive UploadError where
  | unsupportedFormat
  | fileTooLarge
deriving DecidableEq, Repr

/-- An uploaded file as seen by `handleFileUpload`: declared MIME type,
byte size, and the data URL its contents decode to. -/
structure UploadFile where
  mimeType : String
  size : ℕ
  dataUrl : String
deriving DecidableEq, Repr

/-- Steps of the enhanced photo capture component. -/
inductive EPCStep where
  | capture
  | crop
  | enhance
  | template
deriving DecidableEq, Repr

/-- Modes of the enhanced photo capture component. -/
inductive EPCMode where
  | capture
  | upload
  | edit
deriving DecidableEq, Repr

/-- Enhanced photo capture state touched by file ingestion. -/
structure EPCState where
  activeMode : EPCMode
  selectedImage : Option String
  editedImage : Option String
  currentStep : EPCStep
deriving DecidableEq, Repr

/-- The MIME allow-list of `handleFileUpload`. -/
def supportedTypes : List String :=
  ["image/jpeg", "image/jpg", "image/png", "image/webp", "image/heic"]

/-- `handleFileUpload`: rejects a file whose MIME type is outside
`supportedTypes`, then rejects a file over `10 * 1024 * 1024` bytes; on
success the decoded data URL becomes the selected image and the component
moves to the crop step in edit mode.  Rejections leave the state
unchanged. -/
def handleFileUpload (s : EPCState) (f : UploadFile) : EPCState × Option UploadError :=
  if ¬ (supportedTypes.contains f.mimeType) then
    (s, some .unsupportedFormat)
  else if f.size > 10 * 1024 * 1024 then
    (s, some .fileTooLarge)
  else
    ({ s with selectedImage := some f.dataUrl, currentStep := .crop,
              activeMode := .edit }, none)

/-- A CV photo template catalog entry, restricted to the fields the
embedded operations consume. -/
structure PhotoTemplate where
  id : String
  ratio : ℚ
deriving DecidableEq, Repr

/-- Outcome of decoding the source artifact inside `applyTemplate`. -/
inductive DecodeOutcome where
  | ok (w h : ℚ)
  | failed
deriving DecidableEq, Repr

/-- CV photo templates component state touched by `applyTemplate`. -/
structure TemplState where
  selectedTemplate : String
  isProcessing : Bool
  previewUrl : String
deriving DecidableEq, Repr

/-- Result of one `applyTemplate` run: the new component state, the
argument passed to the `onTemplateApplied` callback (`none` when the
callback is not invoked), and whether an error was logged. -/
structure TemplateResult where
  state : TemplState
  callback : Option String
  loggedError : Bool
deriving DecidableEq, Repr

/-- `applyTemplate`: marks processing and records the selected template id,
then awaits the image decode.  On decode failure the error is caught and
logged and processing ends with no other effect; on success the composited
canvas is encoded and its blob URL becomes the preview and the callback
argument. -/
def applyTemplate (s : TemplState) (t : PhotoTemplate) (d : DecodeOutcome)
    (blobUrl : String) : TemplateResult :=
  let s1 := { s with isProcessing := true, selectedTemplate := t.id }
  match d with
  | .failed =>
      { state := { s1 with isProcessing := false }, callback := none,
        loggedError := true }
  | .ok _ _ =>
      { state := { s1 with previewUrl := blobUrl, isProcessing := false },
        callback := some blobUrl, loggedError := false }

/-- Canvas dimensions computed by `applyTemplate` from the template ratio,
bounded by a max edge of 800. -/
def templateCanvasDims (ratio : ℚ) : ℚ × ℚ :=
  if ratio ≥ 1 then (800, 800 / ratio) else (800 * ratio, 800)

/-- Unfolding lemma for the containment invariant. -/
theorem insideContainer_iff (cw ch : ℚ) (s : CropData) :
    insideContainer cw ch s ↔
      0 ≤ s.x ∧ 0 ≤ s.y ∧ s.x + s.width ≤ cw ∧ s.y + s.height ≤ ch :=
  Iff.rfl

/-- C1: the claimed invariant fails already at the initialized region: in a
400×384 container with the default passport aspect ratio 4/6, the
initialization effect produces a 300×450 region centered at y = -33, which
lies outside the container (after the empty sequence of operations). -/
theorem crop_region_escapes_at_init :
    ¬ insideContainer 400 384
      (applyOps 400 384 (4/6) (initializedCrop 400 384 (4/6)) []) := by
  rw [insideContainer_iff]
  norm_num [applyOps, List.foldl_nil, initializedCrop, initCrop,
    initialCropData, min_def]

/-- C1 (amended): provided the starting region lies inside the container
and the fixed reset region fits (300 ≤ containerWidth and
300 / aspectRatio ≤ containerHeight), every region reachable by any
sequence of drag, pinch, zoom-in/out, rotate and reset operations stays
fully inside the container. -/
theorem crop_invariant_preserved_under_fit (cw ch aspectRatio : ℚ)
    (ops : List CropOp) (s : CropData) (hcw : 300 ≤ cw)
    (hch : 300 / aspectRatio ≤ ch) (hs : insideContainer cw ch s) :
    insideContainer cw ch (applyOps cw ch aspectRatio s ops) := by
  induction ops generalizing s with
  | nil => exact hs
  | cons op rest ih =>
    apply ih
    rw [insideContainer_iff] at hs
    obtain ⟨h1, h2, h3, h4⟩ := hs
    cases op with
    | drag nx ny =>
      have hxle : max 0 (min nx (cw - s.width)) ≤ cw - s.width :=
        max_le (by linarith) (min_le_right _ _)
      have hyle : max 0 (min ny (ch - s.height)) ≤ ch - s.height :=
        max_le (by linarith) (min_le_right _ _)
      simp only [applyOp, dragMove, insideContainer_iff]
      refine ⟨le_max_left _ _, le_max_left _ _, by linarith, by linarith⟩
    | pinch k =>
      simp only [applyOp, pinchMove, insideContainer_iff]
      exact ⟨h1, h2, h3, h4⟩
    | zin =>
      simp only [applyOp, zoomIn, insideContainer_iff]
      exact ⟨h1, h2, h3, h4⟩
    | zout =>
      simp only [applyOp, zoomOut, insideContainer_iff]
      exact ⟨h1, h2, h3, h4⟩
    | rot =>
      simp only [applyOp, rotateImage, insideContainer_iff]
      exact ⟨h1, h2, h3, h4⟩
    | reset =>
      simp only [applyOp, resetCrop, insideContainer_iff]
      refine ⟨le_refl 0, le_refl 0, by linarith, by linarith⟩

/-- Witness for the amended C1 theorem at a 400×600 container with square
aspect ratio and a concrete gesture sequence. -/
theorem crop_invariant_preserved_under_fit_witness :
    insideContainer 400 600
      (applyOps 400 600 1 (initializedCrop 400 600 1)
        [CropOp.drag 1000 (-5), CropOp.pinch 2, CropOp.zin, CropOp.rot,
          CropOp.reset, CropOp.drag (-7) 9]) :=
  crop_invariant_preserved_under_fit 400 600 1 _ _ (by norm_num) (by norm_num)
    (by
      rw [insideContainer_iff]
      norm_num [initializedCrop, initCrop, initialCropData, min_def])

/-- C3: after a pinch move with any touch-distance ratio, a zoom-in or a
zoom-out, the zoom stays in [0.5, 3] for every starting zoom in that
interval. -/
theorem zoom_ops_stay_in_bounds (s : CropData) (scaleFactor : ℚ)
    (h : 1/2 ≤ s.zoom ∧ s.zoom ≤ 3) :
    (1/2 ≤ (pinchMove scaleFactor s).zoom ∧ (pinchMove scaleFactor s).zoom ≤ 3) ∧
    (1/2 ≤ (zoomIn s).zoom ∧ (zoomIn s).zoom ≤ 3) ∧
    (1/2 ≤ (zoomOut s).zoom ∧ (zoomOut s).zoom ≤ 3) := by
  obtain ⟨h1, h2⟩ := h
  simp only [pinchMove, zoomIn, zoomOut]
  refine ⟨⟨le_max_left _ _, max_le (by norm_num) (min_le_left _ _)⟩,
    ⟨le_min (by norm_num) (by linarith), min_le_left _ _⟩,
    ⟨le_max_left _ _, max_le (by norm_num) (by linarith)⟩⟩

/-- Witness for the C3 theorem at the initial crop state and an extreme
touch-distance ratio. -/
theorem zoom_ops_stay_in_bounds_witness :
    (1/2 ≤ (pinchMove 1000 initialCropData).zoom ∧
      (pinchMove 1000 initialCropData).zoom ≤ 3) ∧
    (1/2 ≤ (zoomIn initialCropData).zoom ∧ (zoomIn initialCropData).zoom ≤ 3) ∧
    (1/2 ≤ (zoomOut initialCropData).zoom ∧ (zoomOut initialCropData).zoom ≤ 3) :=
  zoom_ops_stay_in_bounds initialCropData 1000 (by norm_num [initialCropData])

/-- C9: four rotations return the crop state to itself whenever the
rotation is one of 0, 90, 180 or 270 degrees, since each rotation adds 90
degrees modulo 360 and changes nothing else. -/
theorem rotate_four_times_identity (s : CropData)
    (h : s.rotation = 0 ∨ s.rotation = 90 ∨ s.rotation = 180 ∨ s.rotation = 270) :
    rotateImage (rotateImage (rotateImage (rotateImage s))) = s := by
  obtain ⟨x, y, w, ht, z, r⟩ := s
  have hr : r = 0 ∨ r = 90 ∨ r = 180 ∨ r = 270 := h
  simp only [rotateImage]
  rcases hr with h' | h' | h' | h' <;> subst h' <;> rfl

/-- Witness for the C9 theorem at the initial crop state (rotation 0). -/
theorem rotate_four_times_identity_witness :
    rotateImage (rotateImage (rotateImage (rotateImage initialCropData))) =
      initialCropData :=
  rotate_four_times_identity initialCropData (Or.inl rfl)

/-- C2: with an unsatisfied guard the Next affordance changes nothing: in
the capture stage with an empty captured artifact the stage remains
capture, and in general pressing Next when `canGoNext` is false leaves the
whole orchestrator state unchanged. -/
theorem pressNext_unsatisfied_guard_noop (s t : MasterState)
    (hstep : s.currentStep = WorkflowStep.capture)
    (hart : s.capturedImage = "") (hguard : canGoNext t = false) :
    (pressNext s).currentStep = WorkflowStep.capture ∧ pressNext t = t := by
  constructor
  · have hg : canGoNext s = false := by
      simp [canGoNext, hstep, hart]
    simp [pressNext, hg, hstep]
  · simp [pressNext, hguard]

/-- Witness for the C2 theorem at the fresh orchestrator state. -/
theorem pressNext_unsatisfied_guard_noop_witness :
    (pressNext ⟨WorkflowStep.capture, "", "", "", ""⟩).currentStep =
      WorkflowStep.capture ∧
    pressNext ⟨WorkflowStep.capture, "", "", "", ""⟩ =
      ⟨WorkflowStep.capture, "", "", "", ""⟩ :=
  pressNext_unsatisfied_guard_noop _ _ rfl rfl (by decide)

/-- C4: a file declared as `image/gif` is rejected with the
unsupported-format error, and a supported-type file over 10 MiB is
rejected with the file-too-large error; both rejections leave the
component state unchanged and produce no artifact. -/
theorem upload_rejects_gif_and_oversize (s : EPCState) (f g : UploadFile)
    (hf : f.mimeType = "image/gif")
    (hg : supportedTypes.contains g.mimeType = true)
    (hgsize : g.size > 10 * 1024 * 1024) :
    handleFileUpload s f = (s, some UploadError.unsupportedFormat) ∧
    handleFileUpload s g = (s, some UploadError.fileTooLarge) := by
  constructor
  · have hm : f.mimeType ∉ supportedTypes := by
      rw [hf]
      decide
    simp [handleFileUpload, hm]
  · have hm : g.mimeType ∈ supportedTypes := by
      simpa using hg
    simp [handleFileUpload, hm, hgsize]

/-- Witness for the C4 theorem: a small GIF and an 11 MiB JPEG. -/
theorem upload_rejects_gif_and_oversize_witness :
    handleFileUpload ⟨EPCMode.capture, none, none, EPCStep.capture⟩
        ⟨"image/gif", 100, "d"⟩ =
      (⟨EPCMode.capture, none, none, EPCStep.capture⟩,
        some UploadError.unsupportedFormat) ∧
    handleFileUpload ⟨EPCMode.capture, none, none, EPCStep.capture⟩
        ⟨"image/jpeg", 11534336, "d"⟩ =
      (⟨EPCMode.capture, none, none, EPCStep.capture⟩,
        some UploadError.fileTooLarge) :=
  upload_rejects_gif_and_oversize _ _ _ rfl (by decide) (by norm_num)

/-- C10: the format check runs first: any file whose MIME type is outside
the supported set is rejected as unsupported-format whatever its size, so
the size check is never reached for such files. -/
theorem format_check_precedes_size_check (s : EPCState) (f : UploadFile)
    (h : supportedTypes.contains f.mimeType = false) :
    handleFileUpload s f = (s, some UploadError.unsupportedFormat) := by
  have hm : f.mimeType ∉ supportedTypes := by
    simpa using h
  simp [handleFileUpload, hm]

/-- Witness for the C10 theorem: an 11 MiB GIF is still reported as
unsupported-format, not file-too-large. -/
theorem format_check_precedes_size_check_witness :
    handleFileUpload ⟨EPCMode.capture, none, none, EPCStep.capture⟩
        ⟨"image/gif", 11534336, "d"⟩ =
      (⟨EPCMode.capture, none, none, EPCStep.capture⟩,
        some UploadError.unsupportedFormat) :=
  format_check_precedes_size_check _ _ (by decide)

/-- C8: when the source image fails to decode in `applyTemplate`, the
published preview is unchanged, the `onTemplateApplied` callback is not
invoked, the failure is surfaced (logged), and processing ends. -/
theorem applyTemplate_decode_failure_preserves_artifact (s : TemplState)
    (t : PhotoTemplate) (blobUrl : String) :
    (applyTemplate s t DecodeOutcome.failed blobUrl).state.previewUrl =
      s.previewUrl ∧
    (applyTemplate s t DecodeOutcome.failed blobUrl).callback = none ∧
    (applyTemplate s t DecodeOutcome.failed blobUrl).loggedError = true ∧
    (applyTemplate s t DecodeOutcome.failed blobUrl).state.isProcessing = false :=
  ⟨rfl, rfl, rfl, rfl⟩

/-- C5: the claim fails: for the passport aspect ratio 4/6 the output
raster is 400×600, so the long edge measures 600 px, not 400 px (the fixed
400 px is the width). -/
theorem applyCrop_output_long_edge_not_400 :
    applyCropOutputDims (4/6) = (400, 600) ∧
    max (applyCropOutputDims (4/6)).1 (applyCropOutputDims (4/6)).2 ≠ 400 := by
  have h : applyCropOutputDims (4/6) = (400, 600) := by
    unfold applyCropOutputDims
    norm_num
  refine ⟨h, ?_⟩
  rw [h]
  norm_num

/-- C5 (amended): `applyCrop` always sizes the output canvas to a fixed
width of 400 px with height `400 / aspectRatio` truncated to an integer,
so the width:height ratio equals the active aspect ratio up to that
truncation — exactly for the passport ratio 4/6, where the output is
400×600. -/
theorem applyCrop_output_dims_fixed_width (aspectRatio : ℚ)
    (h : 0 < aspectRatio) :
    (applyCropOutputDims aspectRatio).1 = 400 ∧
    0 ≤ (applyCropOutputDims aspectRatio).2 ∧
    ((applyCropOutputDims aspectRatio).2 : ℚ) ≤ 400 / aspectRatio ∧
    400 / aspectRatio < (applyCropOutputDims aspectRatio).2 + 1 ∧
    (applyCropOutputDims (4/6)).1 * 6 = (applyCropOutputDims (4/6)).2 * 4 := by
  refine ⟨?_, ?_, ?_, ?_, ?_⟩
  · unfold applyCropOutputDims
    norm_num
  · simp only [applyCropOutputDims]
    exact Int.floor_nonneg.mpr (div_nonneg (by norm_num) h.le)
  · simpa [applyCropOutputDims] using Int.floor_le ((400 : ℚ) / aspectRatio)
  · simp only [applyCropOutputDims]
    exact Int.lt_floor_add_one ((400 : ℚ) / aspectRatio)
  · unfold applyCropOutputDims
    norm_num

/-- Witness for the amended C5 theorem at the passport ratio. -/
theorem applyCrop_output_dims_fixed_width_witness :
    (applyCropOutputDims (4/6)).1 = 400 ∧
    0 ≤ (applyCropOutputDims (4/6)).2 ∧
    ((applyCropOutputDims (4/6)).2 : ℚ) ≤ (400 : ℚ) / (4/6) ∧
    (400 : ℚ) / (4/6) < ((applyCropOutputDims (4/6)).2 : ℚ) + 1 ∧
    (applyCropOutputDims (4/6)).1 * 6 = (applyCropOutputDims (4/6)).2 * 4 :=
  applyCrop_output_dims_fixed_width (4/6) (by norm_num)

/-- C6: the claim fails: in a 1000 px wide container, `resetCrop` does not
produce a region 80% of the container width, nor a centered one — its
width is the fixed 300 and its origin is (0, 0). -/
theorem resetCrop_not_eighty_percent_centered :
    (resetCrop (4/6) initialCropData).width ≠ (8/10) * 1000 ∧
    (resetCrop (4/6) initialCropData).x ≠
      (1000 - (resetCrop (4/6) initialCropData).width) / 2 := by
  constructor <;> norm_num [resetCrop, initialCropData]

/-- C6 (amended): `resetCrop` restores the fixed default state x = 0,
y = 0, width = 300, height = 300 / aspectRatio, zoom 1 and rotation 0,
independent of the container; the region sized to min(300, 80% of the
container width) at the active aspect ratio and centered is produced by
the initialization effect, not by reset. -/
theorem resetCrop_restores_fixed_default (cw ch aspectRatio : ℚ)
    (s : CropData) :
    resetCrop aspectRatio s =
      { x := 0, y := 0, width := 300, height := 300 / aspectRatio,
        zoom := 1, rotation := 0 } ∧
    (initCrop cw ch aspectRatio s).width = min 300 (cw * (8/10)) ∧
    (initCrop cw ch aspectRatio s).height =
      min 300 (cw * (8/10)) / aspectRatio ∧
    (initCrop cw ch aspectRatio s).x = (cw - min 300 (cw * (8/10))) / 2 ∧
    (initCrop cw ch aspectRatio s).y =
      (ch - min 300 (cw * (8/10)) / aspectRatio) / 2 :=
  ⟨rfl, rfl, rfl, rfl, rfl⟩

/-- C7: the claim fails: the display-to-source mapping performs no
rounding — at display width 2 and natural width 3, a region with x = 1
maps to the fractional source coordinate 3/2, which is not its floor. -/
theorem cropSourceRect_does_not_floor :
    (computeCropSourceRect ⟨1, 0, 1, 1, 1, 0⟩ 2 2 3 3).1 = 3/2 ∧
    ((⌊(computeCropSourceRect ⟨1, 0, 1, 1, 1, 0⟩ 2 2 3 3).1⌋ : ℚ) ≠
      (computeCropSourceRect ⟨1, 0, 1, 1, 1, 0⟩ 2 2 3 3).1) := by
  have h : (computeCropSourceRect ⟨1, 0, 1, 1, 1, 0⟩ 2 2 3 3).1 = 3/2 := by
    unfold computeCropSourceRect
    norm_num
  refine ⟨h, ?_⟩
  rw [h]
  norm_num

/-- C7 (amended): the mapping multiplies each coordinate by the exact
ratio natural/display with no rounding, and whenever the crop region lies
inside the displayed image the resulting source rectangle lies inside the
source image — so no edge overflow occurs at all, without any flooring. -/
theorem cropSourceRect_exact_and_bounded (s : CropData)
    (dW dH nW nH : ℚ) (hdW : 0 < dW) (hdH : 0 < dH)
    (hnW : 0 ≤ nW) (hnH : 0 ≤ nH) (hx : 0 ≤ s.x) (hy : 0 ≤ s.y)
    (hxe : s.x + s.width ≤ dW) (hye : s.y + s.height ≤ dH) :
    (computeCropSourceRect s dW dH nW nH).1 = s.x * (nW / dW) ∧
    (computeCropSourceRect s dW dH nW nH).2.1 = s.y * (nH / dH) ∧
    0 ≤ (computeCropSourceRect s dW dH nW nH).1 ∧
    0 ≤ (computeCropSourceRect s dW dH nW nH).2.1 ∧
    (computeCropSourceRect s dW dH nW nH).1 +
      (computeCropSourceRect s dW dH nW nH).2.2.1 ≤ nW ∧
    (computeCropSourceRect s dW dH nW nH).2.1 +
      (computeCropSourceRect s dW dH nW nH).2.2.2 ≤ nH := by
  have hsx : 0 ≤ nW / dW := div_nonneg hnW hdW.le
  have hsy : 0 ≤ nH / dH := div_nonneg hnH hdH.le
  refine ⟨rfl, rfl, mul_nonneg hx hsx, mul_nonneg hy hsy, ?_, ?_⟩
  · show s.x * (nW / dW) + s.width * (nW / dW) ≤ nW
    have hb : (s.x + s.width) * (nW / dW) ≤ dW * (nW / dW) :=
      mul_le_mul_of_nonneg_right hxe hsx
    have he : dW * (nW / dW) = nW := by
      field_simp
    calc s.x * (nW / dW) + s.width * (nW / dW)
        = (s.x + s.width) * (nW / dW) := by ring
      _ ≤ dW * (nW / dW) := hb
      _ = nW := he
  · show s.y * (nH / dH) + s.height * (nH / dH) ≤ nH
    have hb : (s.y + s.height) * (nH / dH) ≤ dH * (nH / dH) :=
      mul_le_mul_of_nonneg_right hye hsy
    have he : dH * (nH / dH) = nH := by
      field_simp
    calc s.y * (nH / dH) + s.height * (nH / dH)
        = (s.y + s.height) * (nH / dH) := by ring
      _ ≤ dH * (nH / dH) := hb
      _ = nH := he

/-- Witness for the amended C7 theorem at display size 2×2, natural size
3×3 and a unit region at (1, 0). -/
theorem cropSourceRect_exact_and_bounded_witness :
    (computeCropSourceRect ⟨1, 0, 1, 1, 1, 0⟩ 2 2 3 3).1 =
      (1 : ℚ) * (3 / 2) ∧
    (computeCropSourceRect ⟨1, 0, 1, 1, 1, 0⟩ 2 2 3 3).2.1 =
      (0 : ℚ) * (3 / 2) ∧
    0 ≤ (computeCropSourceRect ⟨1, 0, 1, 1, 1, 0⟩ 2 2 3 3).1 ∧
    0 ≤ (computeCropSourceRect ⟨1, 0, 1, 1, 1, 0⟩ 2 2 3 3).2.1 ∧
    (computeCropSourceRect ⟨1, 0, 1, 1, 1, 0⟩ 2 2 3 3).1 +
      (computeCropSourceRect ⟨1, 0, 1, 1, 1, 0⟩ 2 2 3 3).2.2.1 ≤ 3 ∧
    (computeCropSourceRect ⟨1, 0, 1, 1, 1, 0⟩ 2 2 3 3).2.1 +
      (computeCropSourceRect ⟨1, 0, 1, 1, 1, 0⟩ 2 2 3 3).2.2.2 ≤ 3 :=
  cropSourceRect_exact_and_bounded ⟨1, 0, 1, 1, 1, 0⟩ 2 2 3 3
    (by norm_num) (by norm_num) (by norm_num) (by norm_num)
    (by norm_num) (by norm_num) (by norm_num) (by norm_num)
